import Mathlib

/-!
Verification of the RGB Fusion 2.0 USB lighting driver
(`src/liquidctl/driver/rgb_fusion2.py`).

The driver translates a high-level lighting request (channel, mode, colors,
speed) into fixed 64-byte HID feature reports, and decodes the device's
initialization response.  We embed the driver shallowly: the transport layer
is abstracted as a trace of `Action`s (feature-report writes, feature-report
reads, and handle release), and each public operation is a pure Lean function
producing the trace it would perform, together with its result, warnings and
error, mirroring the Python control flow statement by statement.
-/

set_option autoImplicit false

namespace RGBFusion2

/-- A transport-layer action performed by the driver: sending a (padded)
feature report, requesting a feature report by id, or releasing the device
handle (`self.device.release()`). -/
inductive Action where
  | sendFeature (data : List Nat)
  | getFeature (reportId : Nat)
  | release
deriving DecidableEq

/-- `_REPORT_ID = 0xcc` from the source. -/
def REPORT_ID : Nat := 0xcc

/-- `_INIT_CMD = 0x60` from the source. -/
def INIT_CMD : Nat := 0x60

/-- `_WRITE_LENGTH = 64` from the source. -/
def WRITE_LENGTH : Nat := 64

/-- A 6-byte timing tuple, mirroring the Python 6-tuples in the speed tables. -/
abbrev Speed6 := Nat × Nat × Nat × Nat × Nat × Nat

/-- A caller-supplied `[red, green, blue]` triple. -/
abbrev Color := Nat × Nat × Nat

/-- `_COLOR_CHANNELS` from the source: ordered map from channel name to its
2-byte address pair, in table-definition order led1..led7. -/
def COLOR_CHANNELS : List (String × Nat × Nat) :=
  [("led1", 0x20, 0x01),
   ("led2", 0x21, 0x02),
   ("led3", 0x22, 0x04),
   ("led4", 0x23, 0x08),
   ("led5", 0x24, 0x10),
   ("led6", 0x25, 0x20),
   ("led7", 0x26, 0x40)]

/-- `_COLOR_CHANNELS.values()` in table order. -/
def channelValues : List (Nat × Nat) := COLOR_CHANNELS.map (·.2)

/-- Python `str.lower()` (ASCII as used by this driver).  Extensionally the
same function as `String.toLower`, but written by mapping `Char.toLower` over
the character list so that it reduces inside the kernel. -/
def pyLower (s : String) : String := ⟨s.data.map Char.toLower⟩

/-- Python dict lookup `_COLOR_CHANNELS[name]`. -/
def channelLookup (name : String) : Option (Nat × Nat) :=
  (COLOR_CHANNELS.find? (fun p => p.1 == name)).map (·.2)

/-- `_PULSE_SPEEDS` from the source. -/
def PULSE_SPEEDS : List (String × Speed6) :=
  [("slowest",   (0x40, 0x06, 0x40, 0x06, 0x20, 0x03)),
   ("slower",    (0x78, 0x05, 0x78, 0x05, 0xbc, 0x02)),
   ("normal",    (0xb0, 0x04, 0xb0, 0x04, 0xf4, 0x01)),
   ("faster",    (0xe8, 0x03, 0xe8, 0x03, 0xf4, 0x01)),
   ("fastest",   (0x84, 0x03, 0x84, 0x03, 0xc2, 0x01)),
   ("ludicrous", (0x20, 0x03, 0x20, 0x03, 0x90, 0x01))]

/-- `_FLASH_SPEEDS` from the source. -/
def FLASH_SPEEDS : List (String × Speed6) :=
  [("slowest",   (0x64, 0x00, 0x64, 0x00, 0x60, 0x09)),
   ("slower",    (0x64, 0x00, 0x64, 0x00, 0x90, 0x08)),
   ("normal",    (0x64, 0x00, 0x64, 0x00, 0xd0, 0x07)),
   ("faster",    (0x64, 0x00, 0x64, 0x00, 0x08, 0x07)),
   ("fastest",   (0x64, 0x00, 0x64, 0x00, 0x40, 0x06)),
   ("ludicrous", (0x64, 0x00, 0x64, 0x00, 0x78, 0x05))]

/-- `_DOUBLE_FLASH_SPEEDS` from the source.  Note the second key is literally
`"slower "` with a trailing space in the source, reproduced here verbatim. -/
def DOUBLE_FLASH_SPEEDS : List (String × Speed6) :=
  [("slowest",   (0x64, 0x00, 0x64, 0x00, 0x28, 0x0a)),
   ("slower ",   (0x64, 0x00, 0x64, 0x00, 0x60, 0x09)),
   ("normal",    (0x64, 0x00, 0x64, 0x00, 0x90, 0x08)),
   ("faster",    (0x64, 0x00, 0x64, 0x00, 0xd0, 0x07)),
   ("fastest",   (0x64, 0x00, 0x64, 0x00, 0x08, 0x07)),
   ("ludicrous", (0x64, 0x00, 0x64, 0x00, 0x40, 0x06))]

/-- `_COLOR_CYCLE_SPEEDS` from the source. -/
def COLOR_CYCLE_SPEEDS : List (String × Speed6) :=
  [("slowest",   (0x78, 0x05, 0xb0, 0x04, 0x00, 0x00)),
   ("slower",    (0x7e, 0x04, 0x1a, 0x04, 0x00, 0x00)),
   ("normal",    (0x52, 0x03, 0xee, 0x02, 0x00, 0x00)),
   ("faster",    (0xf8, 0x02, 0x94, 0x02, 0x00, 0x00)),
   ("fastest",   (0x26, 0x02, 0xc2, 0x01, 0x00, 0x00)),
   ("ludicrous", (0xcc, 0x01, 0x68, 0x01, 0x00, 0x00))]

/-- Python dict lookup in a speed table. -/
def speedLookup (tbl : List (String × Speed6)) (name : String) : Option Speed6 :=
  (tbl.find? (fun p => p.1 == name)).map (·.2)

instance instDecEqSpeedEntry : DecidableEq (String × Speed6) :=
  instDecidableEqProd

/-- `_ColorMode` namedtuple from the source. -/
structure ColorMode where
  name : String
  value : Nat
  pulses : Bool
  flash_count : Nat
  cycle_count : Nat
  max_brightness : Nat
  takes_color : Bool
  speed_values : Option (List (String × Speed6))
deriving DecidableEq

/-- `_COLOR_MODES` from the source (keyed by `mode.name`, kept here as the
list in definition order). -/
def COLOR_MODES : List ColorMode :=
  [⟨"off",          0x01, false, 0, 0, 0,   false, none⟩,
   ⟨"static",       0x01, false, 0, 0, 90,  true,  none⟩,
   ⟨"pulse",        0x02, true,  0, 0, 90,  true,  some PULSE_SPEEDS⟩,
   ⟨"flash",        0x03, true,  1, 0, 100, true,  some FLASH_SPEEDS⟩,
   ⟨"double-flash", 0x03, true,  2, 0, 100, true,  some DOUBLE_FLASH_SPEEDS⟩,
   ⟨"color-cycle",  0x04, false, 0, 7, 100, false, some COLOR_CYCLE_SPEEDS⟩]

/-- Python dict lookup `_COLOR_MODES[name]`. -/
def modeLookup (name : String) : Option ColorMode :=
  COLOR_MODES.find? (fun m => m.name == name)

/-- Modelled from the spec: `clamp` lives in `liquidctl.util`, which is not
part of the provided sources; the spec states "Brightness is clamped into
`[0, descriptor.maxBrightness]` before encoding". -/
def clamp (value lo hi : Nat) : Nat := min (max value lo) hi

/-- `_send_feature_report` padding: `data + [0x0]*(_WRITE_LENGTH - len(data))`. -/
def pad64 (data : List Nat) : List Nat :=
  data ++ List.replicate (WRITE_LENGTH - data.length) 0

/-- Flatten a Python 6-tuple of speed bytes into payload bytes
(`data += mode.speed_values[speed]`). -/
def speed6ToList (s : Speed6) : List Nat :=
  [s.1, s.2.1, s.2.2.1, s.2.2.2.1, s.2.2.2.2.1, s.2.2.2.2.2]

/-- The settings payload built by `set_color` before the per-channel address
is patched in (source lines 250-258):
`data = [_REPORT_ID, 0x00 * 10, mode.value, brightness, 0x00]`,
then `data += single_color`, `data += [0x00] * 5`, the six speed bytes,
and `[0x00, 0x00, mode.cycle_count, int(mode.pulses), mode.flash_count]`. -/
def buildData (m : ColorMode) (brightness : Nat) (single_color : Color)
    (speedBytes : Speed6) : List Nat :=
  [REPORT_ID, 0x00, 0x00, 0x00, 0x00, 0x00, 0x00, 0x00,
   0x00, 0x00, 0x00, m.value, brightness, 0x00]
  ++ [single_color.1, single_color.2.1, single_color.2.2]
  ++ [0x00, 0x00, 0x00, 0x00, 0x00]
  ++ speed6ToList speedBytes
  ++ [0x00, 0x00, m.cycle_count, cond m.pulses 1 0, m.flash_count]

/-- `data[1:3] = addr1, addr2` (the payload always has at least 3 bytes). -/
def setAddr (data : List Nat) (a1 a2 : Nat) : List Nat :=
  match data with
  | b0 :: _ :: _ :: rest => b0 :: a1 :: a2 :: rest
  | l => l

/-- The padded execute/commit report `_execute_report` sends:
`[_REPORT_ID, 0x28, 0xff]` padded to 64 bytes. -/
def execBytes : List Nat := pad64 [REPORT_ID, 0x28, 0xff]

/-- Errors `set_color` can raise: `KeyError` on the mode dict (UnknownMode),
`ValueError` when a required color is missing (MissingColor), `KeyError` on a
speed table (UnknownSpeed), `KeyError` on the channel dict (UnknownChannel). -/
inductive SCErr where
  | unknownMode
  | missingColor
  | unknownSpeed
  | unknownChannel
deriving DecidableEq

/-- Outcome of a `set_color` call: the transport actions performed, the
warning events emitted (each carrying the count of dropped colors), and the
error, if any. -/
structure SCResult where
  trace : List Action
  warnings : List Nat
  error : Option SCErr
deriving DecidableEq

/-- Source lines 237-244: draw the first color (reordered to (b, g, r)) when
the mode takes a color, failing if none is supplied; otherwise force zeros
and leave the whole iterator as the remainder. -/
def resolveColor (m : ColorMode) (colors : List Color) :
    Except SCErr (Color × List Color) :=
  if m.takes_color then
    match colors with
    | [] => Except.error SCErr.missingColor
    | c :: rest => Except.ok ((c.2.2, c.2.1, c.1), rest)
  else
    Except.ok ((0, 0, 0), colors)

/-- Source lines 254-257: six speed bytes from the mode's table (a `KeyError`
on an unknown name), or six zero bytes when the mode has no speed table. -/
def resolveSpeed (m : ColorMode) (speed : String) : Except SCErr Speed6 :=
  match m.speed_values with
  | some tbl =>
    match speedLookup tbl speed with
    | some v => Except.ok v
    | none => Except.error SCErr.unknownSpeed
  | none => Except.ok (0, 0, 0, 0, 0, 0)

/-- Source lines 260-263: `'sync'` selects every channel address in table
order; otherwise the single named channel (a `KeyError` if unknown). -/
def resolveChannels (channel : String) : Except SCErr (List (Nat × Nat)) :=
  if channel = "sync" then Except.ok channelValues
  else
    match channelLookup channel with
    | some a => Except.ok [a]
    | none => Except.error SCErr.unknownChannel

/-- `set_color(channel, mode, colors, speed)` from the source, producing the
trace of transport actions together with warnings and error.  Mirrors the
Python control flow: mode lookup, color resolution, warning on extra colors,
brightness clamp, speed resolution, payload build, channel resolution,
one feature-report write per selected channel, the execute report, and the
final handle release. -/
def set_color (channel mode : String) (colors : List Color) (speed : String) :
    SCResult :=
  match modeLookup (pyLower mode) with
  | none => ⟨[], [], some SCErr.unknownMode⟩
  | some m =>
    match resolveColor m colors with
    | Except.error e => ⟨[], [], some e⟩
    | Except.ok (single_color, rest) =>
      let warnings := if rest.length ≠ 0 then [rest.length] else []
      let brightness := clamp 100 0 m.max_brightness
      match resolveSpeed m (pyLower speed) with
      | Except.error e => ⟨[], warnings, some e⟩
      | Except.ok speedBytes =>
        let data := buildData m brightness single_color speedBytes
        match resolveChannels (pyLower channel) with
        | Except.error e => ⟨[], warnings, some e⟩
        | Except.ok chans =>
          ⟨(chans.map fun a => Action.sendFeature (pad64 (setAddr data a.1 a.2)))
             ++ [Action.sendFeature execBytes, Action.release],
           warnings, none⟩

/-- `reset_all_channels` from the source: one `[_REPORT_ID, addr1, 0]` report
per channel (padded), then the execute report.  No handle release. -/
def reset_all_channels : List Action :=
  (COLOR_CHANNELS.map fun c => Action.sendFeature (pad64 [REPORT_ID, c.2.1, 0]))
  ++ [Action.sendFeature execBytes]

/-- `get_status` from the source: returns an empty list and performs no
transport actions. -/
def get_status : List (String × String × String) × List Action := ([], [])

/-- Failures of `initialize`: the `assert` on the response header
(ProtocolError), or the `ValueError` `data.index(0, 12)` would raise were
there no null terminator. -/
inductive InitErr where
  | protocolError
  | valueError
deriving DecidableEq

/-- The `(property, value, unit)` data `initialize` extracts on success:
device-name bytes, firmware-version bytes, and the LED channel count. -/
structure InitInfo where
  dev_name : List Nat
  fw_version : List Nat
  led_channels : Nat
deriving DecidableEq

/-- `initialize` from the source, parameterized by the 64-byte feature-report
response `resp`: sends `[_REPORT_ID, _INIT_CMD]` padded, reads the report,
releases the handle, asserts `resp[0] == 0xcc and resp[1] == 0x01`, then
extracts the null-terminated name from byte 12 on (ASCII decode with
non-ASCII bytes dropped), the firmware version `resp[4:8]`, and the channel
count `resp[3]`. -/
def runInit (resp : List Nat) : List Action × Except InitErr InitInfo :=
  ([Action.sendFeature (pad64 [REPORT_ID, INIT_CMD]),
    Action.getFeature REPORT_ID, Action.release],
   if resp.getD 0 0 = REPORT_ID ∧ resp.getD 1 0 = 0x01 then
     if (resp.drop 12).contains 0 then
       Except.ok
         ⟨((resp.drop 12).takeWhile (fun b => b != 0)).filter
            (fun b => decide (b < 128)),
          (resp.drop 4).take 4, resp.getD 3 0⟩
     else Except.error InitErr.valueError
   else Except.error InitErr.protocolError)

/-- The feature-report payloads written in a trace, in order. -/
def featureWrites (tr : List Action) : List (List Nat) :=
  tr.filterMap fun a =>
    match a with
    | Action.sendFeature w => some w
    | _ => none

/-- The per-channel settings payloads of a trace: every feature write except
the final one (the execute report). -/
def settingsWrites (r : SCResult) : List (List Nat) :=
  (featureWrites r.trace).dropLast

/-- The payload of a write action ([] for the other actions). -/
def actionPayload (a : Action) : List Nat :=
  match a with
  | Action.sendFeature w => w
  | _ => []

theorem featureWrites_map (f : Nat × Nat → List Nat) (l : List (Nat × Nat)) :
    featureWrites (l.map fun a => Action.sendFeature (f a)) = l.map f := by
  induction l with
  | nil => rfl
  | cons a t ih =>
    simpa [featureWrites, List.filterMap_cons] using ih

theorem featureWrites_append (xs ys : List Action) :
    featureWrites (xs ++ ys) = featureWrites xs ++ featureWrites ys := by
  simp [featureWrites, List.filterMap_append]

/-- Any `set_color` run that finishes without an error took exactly this path:
the mode resolved, the color resolved, the speed resolved, the channels
resolved, and the result is one padded settings report per selected channel,
the execute report, and the handle release, with the warning list recording
dropped extra colors. -/
theorem set_color_success_shape (ch md : String) (cs : List Color) (sp : String)
    (h : (set_color ch md cs sp).error = none) :
    ∃ m sc sb chans,
      modeLookup (pyLower md) = some m ∧
      resolveColor m cs = Except.ok sc ∧
      resolveSpeed m (pyLower sp) = Except.ok sb ∧
      resolveChannels (pyLower ch) = Except.ok chans ∧
      set_color ch md cs sp =
        ⟨(chans.map fun a => Action.sendFeature
             (pad64 (setAddr (buildData m (clamp 100 0 m.max_brightness) sc.1 sb)
               a.1 a.2)))
           ++ [Action.sendFeature execBytes, Action.release],
         if sc.2.length ≠ 0 then [sc.2.length] else [], none⟩ := by
  cases hm : modeLookup (pyLower md) with
  | none => simp [set_color, hm] at h
  | some m =>
    cases hc : resolveColor m cs with
    | error e => simp [set_color, hm, hc] at h
    | ok sc =>
      obtain ⟨sc1, sc2⟩ := sc
      cases hs : resolveSpeed m (pyLower sp) with
      | error e => simp [set_color, hm, hc, hs] at h
      | ok sb =>
        cases hch : resolveChannels (pyLower ch) with
        | error e => simp [set_color, hm, hc, hs, hch] at h
        | ok chans =>
          exact ⟨m, (sc1, sc2), sb, chans, rfl, hc, hs, rfl, by
            simp [set_color, hm, hc, hs, hch]⟩

/-- Every per-channel settings report of a successful `set_color` run is the
built payload with some channel address patched into bytes 1-2 and padded to
64 bytes. -/
theorem settings_write_form (ch md : String) (cs : List Color) (sp : String)
    (h : (set_color ch md cs sp).error = none) (w : List Nat)
    (hw : w ∈ settingsWrites (set_color ch md cs sp)) :
    ∃ (m : ColorMode) (sc : Color × List Color) (sb : Speed6) (a : Nat × Nat),
      modeLookup (pyLower md) = some m ∧
      resolveColor m cs = Except.ok sc ∧
      resolveSpeed m (pyLower sp) = Except.ok sb ∧
      w = pad64 (setAddr (buildData m (clamp 100 0 m.max_brightness) sc.1 sb)
            a.1 a.2) := by
  obtain ⟨m, sc, sb, chans, hm, hc, hs, hch, heq⟩ :=
    set_color_success_shape ch md cs sp h
  rw [heq] at hw
  simp only [settingsWrites, featureWrites_append, featureWrites_map] at hw
  rw [show featureWrites [Action.sendFeature execBytes, Action.release]
      = [execBytes] from rfl, List.dropLast_concat] at hw
  obtain ⟨a, _, haw⟩ := List.mem_map.mp hw
  exact ⟨m, sc, sb, a, hm, hc, hs, haw.symm⟩

theorem getLast_append_pair {α : Type} (A : List α) (x y : α) :
    (A ++ [x, y]).getLast? = some y := by
  rw [show A ++ [x, y] = (A ++ [x]) ++ [y] by simp, List.getLast?_concat]

/-- C1 (counterexample): contrary to the claim, `reset_all_channels` performs
no release of the device handle at all. -/
theorem reset_all_channels_never_releases :
    Action.release ∉ reset_all_channels := by
  decide

/-- C1 (amended): `initialize` and `set_color` explicitly release the device
handle before returning (for `initialize` the release even precedes response
validation, so it happens on every read response); `reset_all_channels` and
`get_status` never release it. -/
theorem release_discipline_amended :
    (∀ resp : List Nat, ((runInit resp).1).getLast? = some Action.release) ∧
    (∀ (ch md : String) (cs : List Color) (sp : String),
       (set_color ch md cs sp).error = none →
       (set_color ch md cs sp).trace.getLast? = some Action.release) ∧
    Action.release ∉ reset_all_channels ∧
    get_status.2 = [] := by
  refine ⟨fun resp => rfl, fun ch md cs sp h => ?_, by decide, rfl⟩
  obtain ⟨m, sc, sb, chans, hm, hc, hs, hch, heq⟩ :=
    set_color_success_shape ch md cs sp h
  rw [heq]
  exact getLast_append_pair _ _ _

/-- C1 (witness): a concrete successful `set_color` call whose last transport
action is the handle release. -/
theorem release_discipline_witness :
    (set_color "led1" "static" [(255, 0, 0)] "normal").error = none ∧
    (set_color "led1" "static" [(255, 0, 0)] "normal").trace.getLast?
      = some Action.release :=
  ⟨by decide,
   release_discipline_amended.2.1 "led1" "static" [(255, 0, 0)] "normal"
     (by decide)⟩

/-- C2 (code bug): resolving speed `"slower"` for mode `double-flash` fails
with `UnknownSpeed`, although the module docstring lists `slower` among the
supported speeds for that mode: `_DOUBLE_FLASH_SPEEDS` stores the key as
`"slower "` with a trailing space.  The failing call performs no transport
write; the other tiers (here an uppercased `"SLOWEST"`) still resolve,
showing the surrounding machinery is otherwise intact. -/
theorem double_flash_slower_unknown_speed :
    (set_color "led1" "double-flash" [(0, 0, 255)] "slower").error
      = some SCErr.unknownSpeed ∧
    (set_color "led1" "double-flash" [(0, 0, 255)] "slower").trace = [] ∧
    speedLookup DOUBLE_FLASH_SPEEDS "slower" = none ∧
    ("slower ", (0x64, 0x00, 0x64, 0x00, 0x60, 0x09)) ∈ DOUBLE_FLASH_SPEEDS ∧
    (set_color "led1" "double-flash" [(0, 0, 255)] "SLOWEST").error = none := by
  decide

/-- C4 (counterexample): the first reset report (channel led1, address pair
(0x20, 0x01)) does not carry the channel's full address pair: payload byte 2
is 0, not the second address byte 0x01 required by the claim. -/
theorem reset_report_missing_second_addr_byte :
    ¬ ((actionPayload (reset_all_channels.getD 0 Action.release)).getD 2 0
        = 0x01) := by
  decide

/-- C4 (amended): `reset_all_channels` writes exactly one zero-value report
per defined channel in table order, each carrying only the channel's first
address byte at byte 1 and zero at byte 2 (the second address byte is never
written), with every other payload byte zero, then issues the execute command
once. -/
theorem reset_all_channels_amended :
    reset_all_channels =
      [Action.sendFeature ([REPORT_ID, 0x20, 0] ++ List.replicate 61 0),
       Action.sendFeature ([REPORT_ID, 0x21, 0] ++ List.replicate 61 0),
       Action.sendFeature ([REPORT_ID, 0x22, 0] ++ List.replicate 61 0),
       Action.sendFeature ([REPORT_ID, 0x23, 0] ++ List.replicate 61 0),
       Action.sendFeature ([REPORT_ID, 0x24, 0] ++ List.replicate 61 0),
       Action.sendFeature ([REPORT_ID, 0x25, 0] ++ List.replicate 61 0),
       Action.sendFeature ([REPORT_ID, 0x26, 0] ++ List.replicate 61 0),
       Action.sendFeature ([REPORT_ID, 0x28, 0xff] ++ List.replicate 61 0)] :=
  rfl

/-- C3 (counterexample): for `set_color('led1', 'static', [(255, 0, 0)])` the
claim places the red byte (255) at offset 15 of the settings report, but the
built report has 0 there: the color actually occupies offsets 14-16. -/
theorem report_offsets_claim_cx :
    ¬ (((settingsWrites
          (set_color "led1" "static" [(255, 0, 0)] "normal")).getD 0 []).getD
            15 0 = 255) := by
  decide

/-- C3 (amended): every settings report built by a valid `set_color`
invocation is 64 bytes with the mode code at offset 11, the brightness byte
at offset 12, the color bytes (blue, green, red) at offsets 14-16, the six
speed bytes at offsets 22-27, the cycle count at offset 30, the pulse flag at
offset 31, the flash count at offset 32, and all other bytes past the report
id and channel address equal to zero. -/
theorem report_offsets_amended (ch md : String) (cs : List Color) (sp : String)
    (h : (set_color ch md cs sp).error = none) (w : List Nat)
    (hw : w ∈ settingsWrites (set_color ch md cs sp)) :
    ∃ (m : ColorMode) (sc : Color × List Color) (sb : Speed6) (a1 a2 : Nat),
      modeLookup (pyLower md) = some m ∧
      resolveColor m cs = Except.ok sc ∧
      resolveSpeed m (pyLower sp) = Except.ok sb ∧
      w = [REPORT_ID, a1, a2, 0, 0, 0, 0, 0, 0, 0, 0,
           m.value, clamp 100 0 m.max_brightness, 0,
           sc.1.1, sc.1.2.1, sc.1.2.2, 0, 0, 0, 0, 0,
           sb.1, sb.2.1, sb.2.2.1, sb.2.2.2.1, sb.2.2.2.2.1, sb.2.2.2.2.2,
           0, 0, m.cycle_count, cond m.pulses 1 0, m.flash_count]
          ++ List.replicate 31 0 ∧
      w.length = 64 ∧
      w.getD 11 0 = m.value ∧
      w.getD 12 0 = clamp 100 0 m.max_brightness ∧
      w.getD 14 0 = sc.1.1 ∧ w.getD 15 0 = sc.1.2.1 ∧ w.getD 16 0 = sc.1.2.2 ∧
      w.getD 22 0 = sb.1 ∧ w.getD 23 0 = sb.2.1 ∧ w.getD 24 0 = sb.2.2.1 ∧
      w.getD 25 0 = sb.2.2.2.1 ∧ w.getD 26 0 = sb.2.2.2.2.1 ∧
      w.getD 27 0 = sb.2.2.2.2.2 ∧
      w.getD 30 0 = m.cycle_count ∧ w.getD 31 0 = cond m.pulses 1 0 ∧
      w.getD 32 0 = m.flash_count := by
  obtain ⟨m, sc, sb, a, hm, hc, hs, hww⟩ :=
    settings_write_form ch md cs sp h w hw
  subst hww
  exact ⟨m, sc, sb, a.1, a.2, hm, hc, hs, rfl, rfl, rfl, rfl, rfl, rfl, rfl,
    rfl, rfl, rfl, rfl, rfl, rfl, rfl, rfl, rfl⟩

/-- C3 (witness): the single settings report of a concrete
`set_color('led1', 'pulse', [(1, 2, 3)], 'faster')` call, with every field at
its amended offset. -/
theorem report_offsets_witness :
    ∃ (m : ColorMode) (sc : Color × List Color) (sb : Speed6) (a1 a2 : Nat),
      modeLookup (pyLower "pulse") = some m ∧
      resolveColor m [(1, 2, 3)] = Except.ok sc ∧
      resolveSpeed m (pyLower "faster") = Except.ok sb ∧
      pad64 (setAddr (buildData ⟨"pulse", 0x02, true, 0, 0, 90, true,
          some PULSE_SPEEDS⟩ 90 (3, 2, 1) (0xe8, 0x03, 0xe8, 0x03, 0xf4, 0x01))
          0x20 0x01)
        = [REPORT_ID, a1, a2, 0, 0, 0, 0, 0, 0, 0, 0,
           m.value, clamp 100 0 m.max_brightness, 0,
           sc.1.1, sc.1.2.1, sc.1.2.2, 0, 0, 0, 0, 0,
           sb.1, sb.2.1, sb.2.2.1, sb.2.2.2.1, sb.2.2.2.2.1, sb.2.2.2.2.2,
           0, 0, m.cycle_count, cond m.pulses 1 0, m.flash_count]
          ++ List.replicate 31 0 ∧
      (pad64 (setAddr (buildData ⟨"pulse", 0x02, true, 0, 0, 90, true,
          some PULSE_SPEEDS⟩ 90 (3, 2, 1) (0xe8, 0x03, 0xe8, 0x03, 0xf4, 0x01))
          0x20 0x01)).length = 64 ∧
      (pad64 (setAddr (buildData ⟨"pulse", 0x02, true, 0, 0, 90, true,
          some PULSE_SPEEDS⟩ 90 (3, 2, 1) (0xe8, 0x03, 0xe8, 0x03, 0xf4, 0x01))
          0x20 0x01)).getD 11 0 = m.value ∧
      (pad64 (setAddr (buildData ⟨"pulse", 0x02, true, 0, 0, 90, true,
          some PULSE_SPEEDS⟩ 90 (3, 2, 1) (0xe8, 0x03, 0xe8, 0x03, 0xf4, 0x01))
          0x20 0x01)).getD 12 0 = clamp 100 0 m.max_brightness ∧
      (pad64 (setAddr (buildData ⟨"pulse", 0x02, true, 0, 0, 90, true,
          some PULSE_SPEEDS⟩ 90 (3, 2, 1) (0xe8, 0x03, 0xe8, 0x03, 0xf4, 0x01))
          0x20 0x01)).getD 14 0 = sc.1.1 ∧
      (pad64 (setAddr (buildData ⟨"pulse", 0x02, true, 0, 0, 90, true,
          some PULSE_SPEEDS⟩ 90 (3, 2, 1) (0xe8, 0x03, 0xe8, 0x03, 0xf4, 0x01))
          0x20 0x01)).getD 15 0 = sc.1.2.1 ∧
      (pad64 (setAddr (buildData ⟨"pulse", 0x02, true, 0, 0, 90, true,
          some PULSE_SPEEDS⟩ 90 (3, 2, 1) (0xe8, 0x03, 0xe8, 0x03, 0xf4, 0x01))
          0x20 0x01)).getD 16 0 = sc.1.2.2 ∧
      (pad64 (setAddr (buildData ⟨"pulse", 0x02, true, 0, 0, 90, true,
          some PULSE_SPEEDS⟩ 90 (3, 2, 1) (0xe8, 0x03, 0xe8, 0x03, 0xf4, 0x01))
          0x20 0x01)).getD 22 0 = sb.1 ∧
      (pad64 (setAddr (buildData ⟨"pulse", 0x02, true, 0, 0, 90, true,
          some PULSE_SPEEDS⟩ 90 (3, 2, 1) (0xe8, 0x03, 0xe8, 0x03, 0xf4, 0x01))
          0x20 0x01)).getD 23 0 = sb.2.1 ∧
      (pad64 (setAddr (buildData ⟨"pulse", 0x02, true, 0, 0, 90, true,
          some PULSE_SPEEDS⟩ 90 (3, 2, 1) (0xe8, 0x03, 0xe8, 0x03, 0xf4, 0x01))
          0x20 0x01)).getD 24 0 = sb.2.2.1 ∧
      (pad64 (setAddr (buildData ⟨"pulse", 0x02, true, 0, 0, 90, true,
          some PULSE_SPEEDS⟩ 90 (3, 2, 1) (0xe8, 0x03, 0xe8, 0x03, 0xf4, 0x01))
          0x20 0x01)).getD 25 0 = sb.2.2.2.1 ∧
      (pad64 (setAddr (buildData ⟨"pulse", 0x02, true, 0, 0, 90, true,
          some PULSE_SPEEDS⟩ 90 (3, 2, 1) (0xe8, 0x03, 0xe8, 0x03, 0xf4, 0x01))
          0x20 0x01)).getD 26 0 = sb.2.2.2.2.1 ∧
      (pad64 (setAddr (buildData ⟨"pulse", 0x02, true, 0, 0, 90, true,
          some PULSE_SPEEDS⟩ 90 (3, 2, 1) (0xe8, 0x03, 0xe8, 0x03, 0xf4, 0x01))
          0x20 0x01)).getD 27 0 = sb.2.2.2.2.2 ∧
      (pad64 (setAddr (buildData ⟨"pulse", 0x02, true, 0, 0, 90, true,
          some PULSE_SPEEDS⟩ 90 (3, 2, 1) (0xe8, 0x03, 0xe8, 0x03, 0xf4, 0x01))
          0x20 0x01)).getD 30 0 = m.cycle_count ∧
      (pad64 (setAddr (buildData ⟨"pulse", 0x02, true, 0, 0, 90, true,
          some PULSE_SPEEDS⟩ 90 (3, 2, 1) (0xe8, 0x03, 0xe8, 0x03, 0xf4, 0x01))
          0x20 0x01)).getD 31 0 = cond m.pulses 1 0 ∧
      (pad64 (setAddr (buildData ⟨"pulse", 0x02, true, 0, 0, 90, true,
          some PULSE_SPEEDS⟩ 90 (3, 2, 1) (0xe8, 0x03, 0xe8, 0x03, 0xf4, 0x01))
          0x20 0x01)).getD 32 0 = m.flash_count :=
  report_offsets_amended "led1" "pulse" [(1, 2, 3)] "faster" (by decide)
    (pad64 (setAddr (buildData ⟨"pulse", 0x02, true, 0, 0, 90, true,
        some PULSE_SPEEDS⟩ 90 (3, 2, 1) (0xe8, 0x03, 0xe8, 0x03, 0xf4, 0x01))
        0x20 0x01))
    (by decide)

/-- C5: a successful `set_color` on channel `"sync"` issues exactly seven
per-channel settings writes, one for each of led1..led7 in table-definition
order with that channel's address pair patched into the payload, followed by
exactly one execute write `[0xCC, 0x28, 0xFF]` zero-padded to 64 bytes (and
the handle release). -/
theorem sync_expansion (md : String) (cs : List Color) (sp : String)
    (h : (set_color "sync" md cs sp).error = none) :
    ∃ (m : ColorMode) (sc : Color × List Color) (sb : Speed6),
      modeLookup (pyLower md) = some m ∧
      resolveColor m cs = Except.ok sc ∧
      resolveSpeed m (pyLower sp) = Except.ok sb ∧
      (set_color "sync" md cs sp).trace =
        ([(0x20, 0x01), (0x21, 0x02), (0x22, 0x04), (0x23, 0x08),
          (0x24, 0x10), (0x25, 0x20), (0x26, 0x40)].map fun a =>
            Action.sendFeature (pad64 (setAddr
              (buildData m (clamp 100 0 m.max_brightness) sc.1 sb) a.1 a.2)))
          ++ [Action.sendFeature
                ([REPORT_ID, 0x28, 0xff] ++ List.replicate 61 0),
              Action.release] ∧
      (settingsWrites (set_color "sync" md cs sp)).length = 7 := by
  obtain ⟨m, sc, sb, chans, hm, hc, hs, hch, heq⟩ :=
    set_color_success_shape "sync" md cs sp h
  have hsync : resolveChannels (pyLower "sync") = Except.ok channelValues := rfl
  rw [hsync] at hch
  obtain rfl : chans = channelValues := (Except.ok.inj hch).symm
  refine ⟨m, sc, sb, hm, hc, hs, ?_, ?_⟩
  · rw [heq]
    rfl
  · rw [heq]
    rfl

/-- C5 (witness): the sync expansion at the concrete call
`set_color('sync', 'off', [], 'normal')`. -/
theorem sync_expansion_witness :
    ∃ (m : ColorMode) (sc : Color × List Color) (sb : Speed6),
      modeLookup (pyLower "off") = some m ∧
      resolveColor m ([] : List Color) = Except.ok sc ∧
      resolveSpeed m (pyLower "normal") = Except.ok sb ∧
      (set_color "sync" "off" ([] : List Color) "normal").trace =
        ([(0x20, 0x01), (0x21, 0x02), (0x22, 0x04), (0x23, 0x08),
          (0x24, 0x10), (0x25, 0x20), (0x26, 0x40)].map fun a =>
            Action.sendFeature (pad64 (setAddr
              (buildData m (clamp 100 0 m.max_brightness) sc.1 sb) a.1 a.2)))
          ++ [Action.sendFeature
                ([REPORT_ID, 0x28, 0xff] ++ List.replicate 61 0),
              Action.release] ∧
      (settingsWrites
        (set_color "sync" "off" ([] : List Color) "normal")).length = 7 :=
  sync_expansion "off" ([] : List Color) "normal" (by decide)

theorem mode_table_brightness :
    ∀ x ∈ COLOR_MODES,
      (x.name = "static" ∨ x.name = "pulse") → x.max_brightness = 90 := by
  decide

/-- C6: every settings payload of a successful `set_color` run respects its
mode descriptor: a mode that takes no color always encodes color bytes
(0, 0, 0); a mode with no speed table always encodes six zero speed bytes;
the brightness byte is the requested 100 clamped into
[0, descriptor.max_brightness], hence 90 for modes static and pulse. -/
theorem descriptor_invariants (ch md : String) (cs : List Color) (sp : String)
    (m : ColorMode) (hm : modeLookup (pyLower md) = some m)
    (h : (set_color ch md cs sp).error = none) (w : List Nat)
    (hw : w ∈ settingsWrites (set_color ch md cs sp)) :
    (m.takes_color = false →
       w.getD 14 0 = 0 ∧ w.getD 15 0 = 0 ∧ w.getD 16 0 = 0) ∧
    (m.speed_values = none →
       w.getD 22 0 = 0 ∧ w.getD 23 0 = 0 ∧ w.getD 24 0 = 0 ∧
       w.getD 25 0 = 0 ∧ w.getD 26 0 = 0 ∧ w.getD 27 0 = 0) ∧
    w.getD 12 0 = clamp 100 0 m.max_brightness ∧
    ((m.name = "static" ∨ m.name = "pulse") → w.getD 12 0 = 90) := by
  obtain ⟨m', sc, sb, a, hm', hc, hs, hww⟩ :=
    settings_write_form ch md cs sp h w hw
  rw [hm] at hm'
  have hmm : m' = m := (Option.some.inj hm').symm
  rw [hmm] at hc hs hww
  subst hww
  refine ⟨?_, ?_, rfl, ?_⟩
  · intro htc
    simp only [resolveColor, htc, Bool.false_eq_true, if_false] at hc
    obtain rfl : ((0, 0, 0), cs) = sc := Except.ok.inj hc
    exact ⟨rfl, rfl, rfl⟩
  · intro hsv
    simp only [resolveSpeed, hsv] at hs
    obtain rfl : ((0, 0, 0, 0, 0, 0) : Speed6) = sb := Except.ok.inj hs
    exact ⟨rfl, rfl, rfl, rfl, rfl, rfl⟩
  · intro hname
    have hmem : m ∈ COLOR_MODES := List.mem_of_find?_eq_some hm
    have h90 : m.max_brightness = 90 := mode_table_brightness m hmem hname
    show clamp 100 0 m.max_brightness = 90
    rw [h90]
    rfl

/-- C6 (witness): the invariants evaluated at the concrete call
`set_color('led2', 'off', [(9, 9, 9)], 'normal')` — mode `off` takes no color
and has no speed table, so its report's color and speed bytes are zero. -/
theorem descriptor_invariants_witness :
    ((pad64 (setAddr (buildData ⟨"off", 0x01, false, 0, 0, 0, false, none⟩ 0
         (0, 0, 0) (0, 0, 0, 0, 0, 0)) 0x21 0x02)).getD 14 0 = 0 ∧
     (pad64 (setAddr (buildData ⟨"off", 0x01, false, 0, 0, 0, false, none⟩ 0
         (0, 0, 0) (0, 0, 0, 0, 0, 0)) 0x21 0x02)).getD 15 0 = 0 ∧
     (pad64 (setAddr (buildData ⟨"off", 0x01, false, 0, 0, 0, false, none⟩ 0
         (0, 0, 0) (0, 0, 0, 0, 0, 0)) 0x21 0x02)).getD 16 0 = 0) ∧
    ((pad64 (setAddr (buildData ⟨"off", 0x01, false, 0, 0, 0, false, none⟩ 0
         (0, 0, 0) (0, 0, 0, 0, 0, 0)) 0x21 0x02)).getD 22 0 = 0 ∧
     (pad64 (setAddr (buildData ⟨"off", 0x01, false, 0, 0, 0, false, none⟩ 0
         (0, 0, 0) (0, 0, 0, 0, 0, 0)) 0x21 0x02)).getD 23 0 = 0 ∧
     (pad64 (setAddr (buildData ⟨"off", 0x01, false, 0, 0, 0, false, none⟩ 0
         (0, 0, 0) (0, 0, 0, 0, 0, 0)) 0x21 0x02)).getD 24 0 = 0 ∧
     (pad64 (setAddr (buildData ⟨"off", 0x01, false, 0, 0, 0, false, none⟩ 0
         (0, 0, 0) (0, 0, 0, 0, 0, 0)) 0x21 0x02)).getD 25 0 = 0 ∧
     (pad64 (setAddr (buildData ⟨"off", 0x01, false, 0, 0, 0, false, none⟩ 0
         (0, 0, 0) (0, 0, 0, 0, 0, 0)) 0x21 0x02)).getD 26 0 = 0 ∧
     (pad64 (setAddr (buildData ⟨"off", 0x01, false, 0, 0, 0, false, none⟩ 0
         (0, 0, 0) (0, 0, 0, 0, 0, 0)) 0x21 0x02)).getD 27 0 = 0) ∧
    (pad64 (setAddr (buildData ⟨"off", 0x01, false, 0, 0, 0, false, none⟩ 0
        (0, 0, 0) (0, 0, 0, 0, 0, 0)) 0x21 0x02)).getD 12 0
      = clamp 100 0
          ((⟨"off", 0x01, false, 0, 0, 0, false, none⟩ :
            ColorMode).max_brightness) := by
  have t := descriptor_invariants "led2" "off" [(9, 9, 9)] "normal"
    ⟨"off", 0x01, false, 0, 0, 0, false, none⟩ (by decide) (by decide)
    (pad64 (setAddr (buildData ⟨"off", 0x01, false, 0, 0, 0, false, none⟩ 0
      (0, 0, 0) (0, 0, 0, 0, 0, 0)) 0x21 0x02)) (by decide)
  exact ⟨t.1 (by decide), t.2.1 (by decide), t.2.2.1⟩

/-- C7: for a color-taking mode, the caller's `(red, green, blue)` triple is
encoded in blue-green-red order at offsets 14-16 of every settings report. -/
theorem color_bgr_order (ch md : String) (r g b : Nat) (rest0 : List Color)
    (sp : String) (m : ColorMode) (hm : modeLookup (pyLower md) = some m)
    (htc : m.takes_color = true)
    (h : (set_color ch md ((r, g, b) :: rest0) sp).error = none)
    (w : List Nat)
    (hw : w ∈ settingsWrites (set_color ch md ((r, g, b) :: rest0) sp)) :
    w.getD 14 0 = b ∧ w.getD 15 0 = g ∧ w.getD 16 0 = r := by
  obtain ⟨m', sc, sb, a, hm', hc, hs, hww⟩ :=
    settings_write_form ch md ((r, g, b) :: rest0) sp h w hw
  rw [hm] at hm'
  have hmm : m' = m := (Option.some.inj hm').symm
  rw [hmm] at hc hs hww
  simp only [resolveColor, htc, if_true] at hc
  obtain rfl : ((b, g, r), rest0) = sc := Except.ok.inj hc
  subst hww
  exact ⟨rfl, rfl, rfl⟩

/-- C7 (witness): supplying `(red=255, green=0, blue=0)` to mode `static`
yields encoded color bytes `(0, 0, 255)` at offsets 14-16. -/
theorem color_bgr_order_witness :
    (pad64 (setAddr (buildData ⟨"static", 0x01, false, 0, 0, 90, true, none⟩
        90 (0, 0, 255) (0, 0, 0, 0, 0, 0)) 0x20 0x01)).getD 14 0 = 0 ∧
    (pad64 (setAddr (buildData ⟨"static", 0x01, false, 0, 0, 90, true, none⟩
        90 (0, 0, 255) (0, 0, 0, 0, 0, 0)) 0x20 0x01)).getD 15 0 = 0 ∧
    (pad64 (setAddr (buildData ⟨"static", 0x01, false, 0, 0, 90, true, none⟩
        90 (0, 0, 255) (0, 0, 0, 0, 0, 0)) 0x20 0x01)).getD 16 0 = 255 :=
  color_bgr_order "led1" "static" 255 0 0 [] "normal"
    ⟨"static", 0x01, false, 0, 0, 90, true, none⟩ (by decide) (by decide)
    (by decide)
    (pad64 (setAddr (buildData ⟨"static", 0x01, false, 0, 0, 90, true, none⟩
      90 (0, 0, 255) (0, 0, 0, 0, 0, 0)) 0x20 0x01))
    (by decide)

/-- C8: for a color-taking mode, supplying no color fails with `MissingColor`
before any transport write; supplying extra colors beyond the first changes
neither the trace nor the error of the call (only the first color is
encoded), and exactly one warning is emitted counting the discarded
extras. -/
theorem color_arity_handling (ch md sp : String) (m : ColorMode)
    (hm : modeLookup (pyLower md) = some m) (htc : m.takes_color = true) :
    set_color ch md [] sp = ⟨[], [], some SCErr.missingColor⟩ ∧
    ∀ (c : Color) (rest : List Color),
      (set_color ch md (c :: rest) sp).trace
        = (set_color ch md [c] sp).trace ∧
      (set_color ch md (c :: rest) sp).error
        = (set_color ch md [c] sp).error ∧
      (rest ≠ [] →
        (set_color ch md (c :: rest) sp).warnings = [rest.length]) := by
  constructor
  · simp [set_color, hm, resolveColor, htc]
  · intro c rest
    have hc1 : resolveColor m (c :: rest)
        = Except.ok ((c.2.2, c.2.1, c.1), rest) := by
      simp [resolveColor, htc]
    have hc2 : resolveColor m [c] = Except.ok ((c.2.2, c.2.1, c.1), []) := by
      simp [resolveColor, htc]
    have hwarn : rest ≠ [] → (if rest.length ≠ 0 then [rest.length] else [])
        = [rest.length] := by
      intro hne
      rw [if_pos]
      intro hl
      exact hne (List.length_eq_zero.mp hl)
    cases hs : resolveSpeed m (pyLower sp) with
    | error e =>
      refine ⟨?_, ?_, ?_⟩
      · simp [set_color, hm, hc1, hc2, hs]
      · simp [set_color, hm, hc1, hc2, hs]
      · intro hne
        simp only [set_color, hm, hc1, hs]
        exact hwarn hne
    | ok sb =>
      cases hch : resolveChannels (pyLower ch) with
      | error e =>
        refine ⟨?_, ?_, ?_⟩
        · simp [set_color, hm, hc1, hc2, hs, hch]
        · simp [set_color, hm, hc1, hc2, hs, hch]
        · intro hne
          simp only [set_color, hm, hc1, hs, hch]
          exact hwarn hne
      | ok chans =>
        refine ⟨?_, ?_, ?_⟩
        · simp [set_color, hm, hc1, hc2, hs, hch]
        · simp [set_color, hm, hc1, hc2, hs, hch]
        · intro hne
          simp only [set_color, hm, hc1, hs, hch]
          exact hwarn hne

/-- C8 (witness): mode `static` with no color fails with `MissingColor`; with
two colors the call produces the same trace and error as with one color and
emits exactly one warning counting the one discarded extra. -/
theorem color_arity_witness :
    set_color "led1" "static" ([] : List Color) "normal"
      = ⟨[], [], some SCErr.missingColor⟩ ∧
    (set_color "led1" "static" [(1, 2, 3), (4, 5, 6)] "normal").trace
      = (set_color "led1" "static" [(1, 2, 3)] "normal").trace ∧
    (set_color "led1" "static" [(1, 2, 3), (4, 5, 6)] "normal").error
      = (set_color "led1" "static" [(1, 2, 3)] "normal").error ∧
    (set_color "led1" "static" [(1, 2, 3), (4, 5, 6)] "normal").warnings
      = [1] := by
  have t := color_arity_handling "led1" "static" "normal"
    ⟨"static", 0x01, false, 0, 0, 90, true, none⟩ (by decide) (by decide)
  exact ⟨t.1, (t.2 (1, 2, 3) [(4, 5, 6)]).1, (t.2 (1, 2, 3) [(4, 5, 6)]).2.1,
    (t.2 (1, 2, 3) [(4, 5, 6)]).2.2 (by decide)⟩

theorem resolveColor_ok_of (m : ColorMode) (cs : List Color)
    (hne : m.takes_color = true → cs ≠ []) :
    ∃ sc, resolveColor m cs = Except.ok sc := by
  by_cases ht : m.takes_color = true
  · cases cs with
    | nil => exact absurd rfl (hne ht)
    | cons c rest =>
      exact ⟨((c.2.2, c.2.1, c.1), rest), by simp [resolveColor, ht]⟩
  · exact ⟨((0, 0, 0), cs), by simp [resolveColor, ht]⟩

theorem resolveSpeed_ok_of (m : ColorMode) (s : String)
    (hsv : ∀ tbl, m.speed_values = some tbl → (speedLookup tbl s).isSome) :
    ∃ sb, resolveSpeed m s = Except.ok sb := by
  cases hv : m.speed_values with
  | none => exact ⟨(0, 0, 0, 0, 0, 0), by simp [resolveSpeed, hv]⟩
  | some tbl =>
    obtain ⟨v, hvv⟩ := Option.isSome_iff_exists.mp (hsv tbl hv)
    exact ⟨v, by simp [resolveSpeed, hv, hvv]⟩

/-- C9: a `set_color` call that fails performs no transport write at all; an
unknown mode name fails immediately with `UnknownMode`; an unknown channel
name always fails, and — whenever the earlier color and speed steps can
succeed — fails with `UnknownChannel`. -/
theorem unknown_name_rejection (ch md : String) (cs : List Color)
    (sp : String) :
    ((set_color ch md cs sp).error.isSome →
       (set_color ch md cs sp).trace = []) ∧
    (modeLookup (pyLower md) = none →
       set_color ch md cs sp = ⟨[], [], some SCErr.unknownMode⟩) ∧
    (pyLower ch ≠ "sync" → channelLookup (pyLower ch) = none →
       (set_color ch md cs sp).error.isSome) ∧
    (∀ m, modeLookup (pyLower md) = some m →
       (m.takes_color = true → cs ≠ []) →
       (∀ tbl, m.speed_values = some tbl →
          (speedLookup tbl (pyLower sp)).isSome) →
       pyLower ch ≠ "sync" → channelLookup (pyLower ch) = none →
       (set_color ch md cs sp).error = some SCErr.unknownChannel) := by
  refine ⟨?_, ?_, ?_, ?_⟩
  · intro he
    cases hm : modeLookup (pyLower md) with
    | none => simp [set_color, hm]
    | some m =>
      cases hc : resolveColor m cs with
      | error e => simp [set_color, hm, hc]
      | ok sc =>
        obtain ⟨sc1, sc2⟩ := sc
        cases hs : resolveSpeed m (pyLower sp) with
        | error e => simp [set_color, hm, hc, hs]
        | ok sb =>
          cases hch : resolveChannels (pyLower ch) with
          | error e => simp [set_color, hm, hc, hs, hch]
          | ok chans =>
            exfalso
            rw [show (set_color ch md cs sp).error = none from by
              simp [set_color, hm, hc, hs, hch]] at he
            simp at he
  · intro hm
    simp [set_color, hm]
  · intro hns hcl
    have hrc : resolveChannels (pyLower ch)
        = Except.error SCErr.unknownChannel := by
      simp [resolveChannels, hns, hcl]
    cases hm : modeLookup (pyLower md) with
    | none => simp [set_color, hm]
    | some m =>
      cases hc : resolveColor m cs with
      | error e => simp [set_color, hm, hc]
      | ok sc =>
        obtain ⟨sc1, sc2⟩ := sc
        cases hs : resolveSpeed m (pyLower sp) with
        | error e => simp [set_color, hm, hc, hs]
        | ok sb => simp [set_color, hm, hc, hs, hrc]
  · intro m hm htc hsv hns hcl
    have hrc : resolveChannels (pyLower ch)
        = Except.error SCErr.unknownChannel := by
      simp [resolveChannels, hns, hcl]
    obtain ⟨sc, hc⟩ := resolveColor_ok_of m cs htc
    obtain ⟨sb, hs⟩ := resolveSpeed_ok_of m (pyLower sp) hsv
    obtain ⟨sc1, sc2⟩ := sc
    simp [set_color, hm, hc, hs, hrc]

/-- C9 (witness): mode `"rainbow"` is rejected as `UnknownMode` with no
transport action, and channel `"led9"` on mode `off` is rejected as
`UnknownChannel` with no transport action. -/
theorem unknown_name_rejection_witness :
    set_color "led1" "rainbow" ([] : List Color) "normal"
      = ⟨[], [], some SCErr.unknownMode⟩ ∧
    (set_color "led9" "off" ([] : List Color) "normal").error
      = some SCErr.unknownChannel ∧
    (set_color "led9" "off" ([] : List Color) "normal").trace = [] :=
  ⟨(unknown_name_rejection "led1" "rainbow" [] "normal").2.1 (by decide),
   (unknown_name_rejection "led9" "off" [] "normal").2.2.2
     ⟨"off", 0x01, false, 0, 0, 0, false, none⟩ (by decide) (by decide)
     (fun tbl hv => Option.noConfusion hv) (by decide) (by decide),
   (unknown_name_rejection "led9" "off" [] "normal").1
     (by rw [(unknown_name_rejection "led9" "off" [] "normal").2.2.2
       ⟨"off", 0x01, false, 0, 0, 0, false, none⟩ (by decide) (by decide)
       (fun tbl hv => Option.noConfusion hv) (by decide) (by decide)]; rfl)⟩

/-- C10: `initialize` fails with `ProtocolError` whenever the response's byte
0 differs from 0xCC or byte 1 differs from 1, performing no further parsing;
on a well-formed response it returns the null-terminated ASCII device name
starting at byte 12, the firmware version bytes 4-7, and the channel count
byte 3. -/
theorem init_handshake (resp : List Nat) (h64 : resp.length = 64) :
    (¬ (resp.getD 0 0 = REPORT_ID ∧ resp.getD 1 0 = 0x01) →
       (runInit resp).2 = Except.error InitErr.protocolError) ∧
    (resp.getD 0 0 = REPORT_ID → resp.getD 1 0 = 0x01 →
       (resp.drop 12).contains 0 = true →
       (runInit resp).2 = Except.ok
         ⟨((resp.drop 12).takeWhile (fun b => b != 0)).filter
             (fun b => decide (b < 128)),
          [resp.getD 4 0, resp.getD 5 0, resp.getD 6 0, resp.getD 7 0],
          resp.getD 3 0⟩) := by
  rcases resp with _ | ⟨b0, resp⟩; · simp at h64
  rcases resp with _ | ⟨b1, resp⟩; · simp at h64
  rcases resp with _ | ⟨b2, resp⟩; · simp at h64
  rcases resp with _ | ⟨b3, resp⟩; · simp at h64
  rcases resp with _ | ⟨b4, resp⟩; · simp at h64
  rcases resp with _ | ⟨b5, resp⟩; · simp at h64
  rcases resp with _ | ⟨b6, resp⟩; · simp at h64
  rcases resp with _ | ⟨b7, resp⟩; · simp at h64
  constructor
  · intro hbad
    simp only [runInit]
    rw [if_neg hbad]
  · intro h0 h1 hnull
    simp only [runInit]
    rw [if_pos ⟨h0, h1⟩, if_pos hnull]
    rfl

/-- C10 (witness): a response with a wrong status byte yields
`ProtocolError`; a well-formed response parses to name bytes "IT5702",
firmware version (1, 2, 3, 4) from bytes 4-7, and channel count 7 from
byte 3. -/
theorem init_handshake_witness :
    (runInit ([0xcc, 0x00] ++ List.replicate 62 0)).2
      = Except.error InitErr.protocolError ∧
    (runInit ([0xcc, 0x01, 0x00, 0x07, 0x01, 0x02, 0x03, 0x04, 0, 0, 0, 0,
        73, 84, 53, 55, 48, 50] ++ List.replicate 46 0)).2
      = Except.ok ⟨[73, 84, 53, 55, 48, 50], [0x01, 0x02, 0x03, 0x04],
          0x07⟩ := by
  constructor
  · exact (init_handshake ([0xcc, 0x00] ++ List.replicate 62 0)
      (by decide)).1 (by decide)
  · exact (init_handshake
      ([0xcc, 0x01, 0x00, 0x07, 0x01, 0x02, 0x03, 0x04, 0, 0, 0, 0,
        73, 84, 53, 55, 48, 50] ++ List.replicate 46 0)
      (by decide)).2 (by decide) (by decide) (by decide)

end RGBFusion2
